import Mathlib

/-!
Shallow embedding of the email-classification core of `backend-autou`
(`app/services/ai_classifier.py` and `app/services/openai_classifier.py`),
together with theorems settling the specification claims.

Text is modelled as `List Char`.  Python's `str.lower`, the regex classes
`\w` and `\s`, and the word boundary `\b` are modelled on the Basic Latin
and Latin-1 Supplement ranges, which cover every keyword, pattern and
template string appearing in the source.  Scores are `ℤ` (Python ints) and
confidences are `ℚ` (the float literals `0.05`, `0.6`, … are exact
decimals, and every confidence produced is an exact multiple of `1/100`,
so rational arithmetic agrees with the decimal reading of the source).
`EmailAnalysisResponse` keeps the fields the claims speak about; the
`id` (a fresh UUID) and `analysis_timestamp` (wall clock) fields are
environment-supplied and are omitted from the record.
-/

/-- Models `str.lower` for Basic Latin and Latin-1: ASCII upper-case letters
and the accented capitals U+00C0–U+00DE (except `×`) move down by 32. -/
def lowerChar (c : Char) : Char :=
  if 65 ≤ c.toNat ∧ c.toNat ≤ 90 then Char.ofNat (c.toNat + 32)
  else if 0xC0 ≤ c.toNat ∧ c.toNat ≤ 0xDE ∧ c.toNat ≠ 0xD7 then Char.ofNat (c.toNat + 32)
  else c

/-- Models the Python regex class `\w` (Unicode word character) on the
Basic Latin and Latin-1 ranges: ASCII alphanumerics, underscore, the
Latin-1 letters U+00C0–U+00FF minus `×`/`÷`, and `ª`, `µ`, `º`. -/
def isWordChar (c : Char) : Bool :=
  (48 ≤ c.toNat && c.toNat ≤ 57) || (65 ≤ c.toNat && c.toNat ≤ 90) ||
  (97 ≤ c.toNat && c.toNat ≤ 122) || c = '_' ||
  (0xC0 ≤ c.toNat && c.toNat ≤ 0xFF && c.toNat ≠ 0xD7 && c.toNat ≠ 0xF7) ||
  c.toNat = 0xAA || c.toNat = 0xB5 || c.toNat = 0xBA

/-- Models the Python regex class `\s` (ASCII range): space, tab, newline,
carriage return, vertical tab, form feed. -/
def pySpace (c : Char) : Bool :=
  c = ' ' || c = '\t' || c = '\n' || c = '\r' || c.toNat = 11 || c.toNat = 12

/-- Boolean test that `p` is a leading segment of `s` (exact characters). -/
def startsWith : List Char → List Char → Bool
  | [], _ => true
  | _ :: _, [] => false
  | p :: ps, c :: cs => p = c && startsWith ps cs

/-- Fueled worker for `countOcc`; the fuel only guards termination and
`s.length + 1` is always enough, since each step either skips one
character or consumes a non-empty match. -/
def countOccFuel (pat : List Char) : Nat → List Char → Nat
  | 0, _ => 0
  | _ + 1, [] => 0
  | fuel + 1, c :: rest =>
    if startsWith pat (c :: rest) then
      1 + countOccFuel pat fuel ((c :: rest).drop pat.length)
    else
      countOccFuel pat fuel rest

/-- Models Python `text.count(pat)`: the number of non-overlapping
occurrences of `pat` in `s`, scanning left to right. -/
def countOcc (pat s : List Char) : Nat := countOccFuel pat (s.length + 1) s

/-- Models the Python substring test `pat in s` (exact characters). -/
def containsSub (pat : List Char) : List Char → Bool
  | [] => pat.isEmpty
  | c :: rest => startsWith pat (c :: rest) || containsSub pat rest

/-- Models `re.sub(r'\s+', ' ', s)`: every maximal run of whitespace
becomes a single space.  The flag records whether the previous character
belonged to a whitespace run. -/
def collapseWsAux : Bool → List Char → List Char
  | _, [] => []
  | prevSpace, c :: rest =>
    if pySpace c then
      (if prevSpace then [] else [' ']) ++ collapseWsAux true rest
    else
      c :: collapseWsAux false rest

/-- Models Python `str.strip()`: drop leading and trailing whitespace. -/
def stripList (s : List Char) : List Char :=
  ((s.dropWhile pySpace).reverse.dropWhile pySpace).reverse

/-- Counts the words of Python `s.split()`: maximal runs of
non-whitespace characters.  The flag records being inside a word. -/
def wordCountAux : Bool → List Char → Nat
  | _, [] => 0
  | inWord, c :: rest =>
    if pySpace c then wordCountAux false rest
    else (if inWord then 0 else 1) + wordCountAux true rest

/-- Number of whitespace-separated words, as `len(s.split())`. -/
def wordCount (s : List Char) : Nat := wordCountAux false s

/-- Classification enum of `app/models/schemas.py`. -/
inductive EmailClassification where
  | PRODUCTIVE
  | UNPRODUCTIVE
deriving DecidableEq

/-- The `EmailAnalysisResponse` schema restricted to the fields the core
computes deterministically (`id` and `analysis_timestamp` are a fresh
UUID and the wall clock, supplied by the environment, and are omitted). -/
structure EmailAnalysisResponse where
  classification : EmailClassification
  confidence : ℚ
  suggested_response : String
  file_name : Option String
deriving DecidableEq

/-- Models Python `round(q, 2)` on exact rationals: round `q * 100` to the
nearest integer, ties to the even integer (banker's rounding), divide
back by 100. -/
def round2 (q : ℚ) : ℚ :=
  ((if q * 100 - (⌊q * 100⌋ : ℚ) < 1/2 then ⌊q * 100⌋
    else if (1 : ℚ)/2 < q * 100 - (⌊q * 100⌋ : ℚ) then ⌊q * 100⌋ + 1
    else if ⌊q * 100⌋ % 2 = 0 then ⌊q * 100⌋ else ⌊q * 100⌋ + 1 : ℤ) : ℚ) / 100

namespace EmailClassifierService

/-- The `self.productive_keywords` table (`ai_classifier.py`, lines 21-31). -/
def productive_keywords : List (String × List String) := [
  ("action", ["ação", "fazer", "implementar", "desenvolver", "criar", "modificar", "alterar", "corrigir"]),
  ("urgency", ["urgente", "importante", "prioridade", "deadline", "prazo", "imediato"]),
  ("request", ["solicito", "preciso", "necessário", "requer", "pedido", "solicitação"]),
  ("meeting", ["reunião", "meeting", "encontro", "agenda", "agendamento", "horário"]),
  ("decision", ["decisão", "aprovar", "autorizar", "confirmar", "validar", "aceitar"]),
  ("problem", ["problema", "erro", "bug", "falha", "defeito", "issue"]),
  ("question", ["pergunta", "dúvida", "questão", "esclarecimento", "como", "quando", "onde"]),
  ("response_needed", ["resposta", "responder", "retorno", "feedback", "confirmação"])]

/-- The `self.unproductive_keywords` table (`ai_classifier.py`, lines 33-39). -/
def unproductive_keywords : List (String × List String) := [
  ("courtesy", ["obrigado", "parabéns", "felicitações", "sucesso", "gratidão"]),
  ("informational", ["informação", "comunicado", "aviso", "notificação", "atualização"]),
  ("social", ["aniversário", "festa", "evento social", "confraternização"]),
  ("automated", ["automático", "sistema", "newsletter", "boletim", "relatório automático"]),
  ("fyi", ["para conhecimento", "fyi", "informativo", "apenas informando"])]

/-- Models `preprocess_text` (lines 58-64): lower-case, replace every
character outside `[\w\s\?\!]` by a space, collapse whitespace runs,
strip. -/
def preprocess_text (text : List Char) : List Char :=
  let lowered := text.map lowerChar
  let cleaned := lowered.map fun c =>
    if isWordChar c || pySpace c || c = '?' || c = '!' then c else ' '
  stripList (collapseWsAux false cleaned)

/-- Models `calculate_keyword_score` (lines 66-89): per category, count
substring occurrences of each keyword and weight them 3 for
urgency/action/request (resp. courtesy/automated) and 2 otherwise. -/
def calculate_keyword_score (text : List Char) : ℤ × ℤ :=
  let pscore : ℤ := (productive_keywords.map fun ck =>
    (ck.2.map fun keyword =>
      (countOcc keyword.toList text : ℤ) *
        (if ck.1 ∈ (["urgency", "action", "request"] : List String) then 3 else 2)).sum).sum
  let uscore : ℤ := (unproductive_keywords.map fun ck =>
    (ck.2.map fun keyword =>
      (countOcc keyword.toList text : ℤ) *
        (if ck.1 ∈ (["courtesy", "automated"] : List String) then 3 else 2)).sum).sum
  (pscore, uscore)

end EmailClassifierService

/-- Character classes occurring in the source's regular expressions. -/
inductive CharCls where
  | word
  | space
  | oneOf (cs : List Char)

/-- Membership in a character class; literal alternatives (`[oa]`) are
compared case-insensitively, mirroring `re.IGNORECASE`. -/
def clsMatch : CharCls → Char → Bool
  | .word, c => isWordChar c
  | .space, c => pySpace c
  | .oneOf cs, c => cs.any fun x => lowerChar x = lowerChar c

/-- Abstract syntax for exactly the regex constructs the source uses:
literals, `\b`, single-class characters, concatenation, alternation, and
greedy `*`/`+` over a single character class. -/
inductive RE where
  | lit (s : String)
  | wordB
  | ch (c : CharCls)
  | seq (a b : RE)
  | alt (a b : RE)
  | many0 (c : CharCls)
  | many1 (c : CharCls)

/-- Case-insensitive literal matching: if `p` matches a leading segment of
`s`, return the last input character consumed (for later `\b` tests) and
the remaining input. -/
def litStep : List Char → Option Char → List Char → Option (Option Char × List Char)
  | [], prev, s => some (prev, s)
  | _ :: _, _, [] => none
  | p :: ps, _, c :: cs =>
    if lowerChar p = lowerChar c then litStep ps (some c) cs else none

/-- Greedy matching of `cls*`: all possible stopping points, longest
first, each with the last character consumed and the rest of the input. -/
def many0Match (cls : CharCls) : Option Char → List Char → List (Option Char × List Char)
  | prev, [] => [(prev, [])]
  | prev, c :: rest =>
    if clsMatch cls c then many0Match cls (some c) rest ++ [(prev, c :: rest)]
    else [(prev, c :: rest)]

/-- Backtracking matcher in the style of Python `re`: all ways the
expression can match a leading segment of the input, in preference order
(alternatives left first, repetition greedy).  `prev` is the character
just before the current position, used by the `\b` assertion. -/
def reMatch : RE → Option Char → List Char → List (Option Char × List Char)
  | .lit s, prev, input => (litStep s.toList prev input).toList
  | .wordB, prev, input =>
    let a := match prev with | some c => isWordChar c | none => false
    let b := match input with | c :: _ => isWordChar c | [] => false
    if a ≠ b then [(prev, input)] else []
  | .ch _, _, [] => []
  | .ch cls, _, c :: rest => if clsMatch cls c then [(some c, rest)] else []
  | .seq x y, prev, input => (reMatch x prev input).flatMap fun pr => reMatch y pr.1 pr.2
  | .alt x y, prev, input => reMatch x prev input ++ reMatch y prev input
  | .many0 cls, prev, input => many0Match cls prev input
  | .many1 _, _, [] => []
  | .many1 cls, _, c :: rest =>
    if clsMatch cls c then many0Match cls (some c) rest else []

/-- Fueled worker for `countRE`, mirroring the scan of `re.findall`: take
the preferred match at the current position and resume after it, or skip
one character when nothing (or only an empty match) is found there.
`s.length + 1` fuel is always sufficient. -/
def countREFuel (re : RE) : Nat → Option Char → List Char → Nat
  | 0, _, _ => 0
  | _ + 1, prev, [] => if (reMatch re prev []).isEmpty then 0 else 1
  | fuel + 1, prev, c :: rest =>
    match reMatch re prev (c :: rest) with
    | [] => countREFuel re fuel (some c) rest
    | (p, r) :: _ =>
      if r.length < rest.length + 1 then 1 + countREFuel re fuel p r
      else 1 + countREFuel re fuel (some c) rest

/-- Models `len(re.findall(pattern, s, re.IGNORECASE))`. -/
def countRE (re : RE) (s : List Char) : Nat := countREFuel re (s.length + 1) none s

namespace EmailClassifierService

/-- The regex `\b(quando|até quando|prazo|deadline)\b` (line 43). -/
def pat_prod_when : RE :=
  .seq .wordB (.seq
    (.alt (.lit "quando") (.alt (.lit "até quando") (.alt (.lit "prazo") (.lit "deadline"))))
    .wordB)

/-- The regex `\b(pode|poderia|consegue)\s+\w+` (line 44). -/
def pat_prod_modal : RE :=
  .seq .wordB (.seq
    (.alt (.lit "pode") (.alt (.lit "poderia") (.lit "consegue")))
    (.seq (.many1 .space) (.many1 .word)))

/-- The regex `\?` (line 45). -/
def pat_prod_question : RE := .lit "?"

/-- The regex `\b(solicito|preciso|necessário)\b` (line 46). -/
def pat_prod_request : RE :=
  .seq .wordB (.seq
    (.alt (.lit "solicito") (.alt (.lit "preciso") (.lit "necessário")))
    .wordB)

/-- The regex `\b(urgente|importante|prioridade)\b` (line 47). -/
def pat_prod_urgent : RE :=
  .seq .wordB (.seq
    (.alt (.lit "urgente") (.alt (.lit "importante") (.lit "prioridade")))
    .wordB)

/-- The `self.productive_patterns` list (lines 42-48). -/
def productive_patterns : List RE :=
  [pat_prod_when, pat_prod_modal, pat_prod_question, pat_prod_request, pat_prod_urgent]

/-- The regex `\b(obrigad[oa]|agradec)\w*` (line 52). -/
def pat_unprod_thanks : RE :=
  .seq .wordB (.seq
    (.alt (.seq (.lit "obrigad") (.ch (.oneOf ['o', 'a']))) (.lit "agradec"))
    (.many0 .word))

/-- The regex `\b(parabéns|felicitações)\b` (line 53). -/
def pat_unprod_congrats : RE :=
  .seq .wordB (.seq (.alt (.lit "parabéns") (.lit "felicitações")) .wordB)

/-- The regex `\b(para conhecimento|fyi)\b` (line 54). -/
def pat_unprod_fyi : RE :=
  .seq .wordB (.seq (.alt (.lit "para conhecimento") (.lit "fyi")) .wordB)

/-- The regex `\b(newsletter|boletim)\b` (line 55). -/
def pat_unprod_news : RE :=
  .seq .wordB (.seq (.alt (.lit "newsletter") (.lit "boletim")) .wordB)

/-- The `self.unproductive_patterns` list (lines 51-56). -/
def unproductive_patterns : List RE :=
  [pat_unprod_thanks, pat_unprod_congrats, pat_unprod_fyi, pat_unprod_news]

/-- Models `calculate_pattern_score` (lines 91-106): for each pattern,
2 × its `re.findall` match count, summed per class. -/
def calculate_pattern_score (text : List Char) : ℤ × ℤ :=
  ((productive_patterns.map fun p => (countRE p text : ℤ) * 2).sum,
   (unproductive_patterns.map fun p => (countRE p text : ℤ) * 2).sum)

/-- Models `analyze_structure` (lines 108-124): 2 per question mark,
−1 below 20 words, +1 above 200 words. -/
def analyze_structure (text : List Char) : ℤ :=
  2 * (text.count '?' : ℤ)
    + (if wordCount text < 20 then -1 else 0)
    + (if 200 < wordCount text then 1 else 0)

/-- Models `_generate_response` (lines 179-212): fixed reply templates
chosen by case-insensitive substring checks on the original content, in
the source's priority order. -/
def generate_response (classification : EmailClassification) (content : String) : String :=
  let content_lower := content.toList.map lowerChar
  let has : List String → Bool := fun ws =>
    ws.any fun w => containsSub w.toList content_lower
  match classification with
  | .PRODUCTIVE =>
    if has ["urgente", "importante", "prioridade"] then
      "Obrigado pelo seu email. Entendo a importância e urgência da solicitação. Vou priorizar esta demanda e retornar com uma resposta detalhada o mais breve possível."
    else if has ["reunião", "meeting", "agenda"] then
      "Obrigado pela solicitação de reunião. Vou verificar minha agenda e retornar com opções de horários que funcionem para ambos. Aguarde meu retorno em breve."
    else if has ["pergunta", "dúvida", "questão", "?"] then
      "Obrigado pela sua pergunta. Vou analisar os pontos levantados e retornar com uma resposta detalhada. Se precisar de esclarecimentos adicionais, por favor me informe."
    else if has ["problema", "erro", "bug", "falha"] then
      "Obrigado por reportar esta questão. Vou investigar o problema imediatamente e trabalhar em uma solução. Manterei você informado sobre o progresso."
    else
      "Obrigado pelo seu email. Recebi sua solicitação e vou trabalhar nisso. Retornarei com uma resposta completa em breve."
  | .UNPRODUCTIVE =>
    if has ["obrigado", "obrigada", "agradec"] then
      "De nada! Foi um prazer ajudar. Se precisar de mais alguma coisa, não hesite em entrar em contato."
    else if has ["parabéns", "felicitações"] then
      "Muito obrigado pelas felicitações! Fico feliz em compartilhar esta conquista com você."
    else if has ["informação", "comunicado", "aviso"] then
      "Obrigado pela informação. Recebi o comunicado e tomarei as ações necessárias conforme apropriado."
    else
      "Obrigado pelo seu email. Recebi a informação e fico à disposição se precisar de algo mais."

/-- The fixed reply of the `except` branch (line 174), identical in both
services. -/
def error_response_text : String :=
  "Obrigado pelo seu email. Analisaremos o conteúdo e retornaremos em breve."

/-- Models the body of the `try` block of `classify_email`
(lines 128-165): preprocess, score keywords, patterns and structure on
the processed text, decide, clamp and round the confidence. -/
def classify_email_core (content : String) (file_name : Option String) : EmailAnalysisResponse :=
  let processed_text := preprocess_text content.toList
  let keyword_scores := calculate_keyword_score processed_text
  let pattern_scores := calculate_pattern_score processed_text
  let structure_score := analyze_structure processed_text
  let total_productive := keyword_scores.1 + pattern_scores.1 + structure_score
  let total_unproductive := keyword_scores.2
  let classification : EmailClassification :=
    if total_productive > total_unproductive then .PRODUCTIVE else .UNPRODUCTIVE
  let confidence : ℚ :=
    if total_productive > total_unproductive then
      min 0.95 (0.6 + ((total_productive - total_unproductive : ℤ) : ℚ) * 0.05)
    else
      min 0.95 (0.6 + ((total_unproductive - total_productive : ℤ) : ℚ) * 0.05)
  let confidence := max 0.5 confidence
  { classification := classification
    confidence := round2 confidence
    suggested_response := generate_response classification content
    file_name := file_name }

/-- Models `classify_email` (lines 126-177).  The Boolean `err` is the
exception oracle: `true` means an unexpected exception was raised inside
the `try` block, in which case the `except` handler's fixed default
response is returned. -/
def classify_email (err : Bool) (content : String) (file_name : Option String) :
    EmailAnalysisResponse :=
  if err then
    { classification := .UNPRODUCTIVE
      confidence := 0.5
      suggested_response := error_response_text
      file_name := file_name }
  else classify_email_core content file_name

/-- Modelled from the spec for claim C2 only (spec §4.2 step 3, "count
non-overlapping matches in the *original* text"): the same pipeline as
`classify_email_core` except that `calculate_pattern_score` receives the
original content instead of the processed text.  This is what the claim
asserts the code does; the code itself passes `processed_text`. -/
def classify_email_spec_raw_patterns (content : String) (file_name : Option String) :
    EmailAnalysisResponse :=
  let processed_text := preprocess_text content.toList
  let keyword_scores := calculate_keyword_score processed_text
  let pattern_scores := calculate_pattern_score content.toList
  let structure_score := analyze_structure processed_text
  let total_productive := keyword_scores.1 + pattern_scores.1 + structure_score
  let total_unproductive := keyword_scores.2
  let classification : EmailClassification :=
    if total_productive > total_unproductive then .PRODUCTIVE else .UNPRODUCTIVE
  let confidence : ℚ :=
    if total_productive > total_unproductive then
      min 0.95 (0.6 + ((total_productive - total_unproductive : ℤ) : ℚ) * 0.05)
    else
      min 0.95 (0.6 + ((total_unproductive - total_productive : ℤ) : ℚ) * 0.05)
  let confidence := max 0.5 confidence
  { classification := classification
    confidence := round2 confidence
    suggested_response := generate_response classification content
    file_name := file_name }

end EmailClassifierService

namespace OpenAIEmailClassifierService

/-- The parsed JSON object returned by the remote call
(`openai_classifier.py`, line 96), restricted to the four keys the code
inspects; `none` models a missing key.  `classification`, `reasoning` and
`suggested_response` are JSON strings and `confidence` a JSON number, the
shapes the remote contract prescribes. -/
structure RemoteJson where
  classification : Option String
  confidence : Option ℚ
  reasoning : Option String
  suggested_response : Option String

/-- The validated response dictionary that `classify_with_openai` returns
and `generate_fallback_response` also produces (lines 112-113, 156-161). -/
structure RemoteResult where
  classification : String
  confidence : ℚ
  reasoning : String
  suggested_response : String
deriving DecidableEq

/-- Models the validation part of `classify_with_openai` (lines 98-120):
all four keys must be present, the classification must be `productive` or
`unproductive`, and an out-of-range confidence is clamped into
`[0.5, 1.0]`.  `Except.error` models the raised exception. -/
def classify_with_openai (j : RemoteJson) : Except String RemoteResult :=
  match j.classification, j.confidence, j.reasoning, j.suggested_response with
  | some cl, some conf, some reasoning, some suggested =>
    if cl ∉ (["productive", "unproductive"] : List String) then
      .error "Classificação inválida da OpenAI"
    else
      let confidence : ℚ := if ¬ (0.5 ≤ conf ∧ conf ≤ 1.0) then max 0.5 (min 1.0 conf) else conf
      .ok { classification := cl, confidence := confidence,
            reasoning := reasoning, suggested_response := suggested }
  | _, _, _, _ => .error "Resposta da OpenAI não contém todas as chaves necessárias"

/-- The `productive_indicators` list of `generate_fallback_response`
(lines 127-131). -/
def productive_indicators : List String :=
  ["solicito", "preciso", "pode", "poderia", "quando", "prazo",
   "deadline", "urgente", "importante", "reunião", "meeting",
   "projeto", "tarefa", "problema", "erro", "bug", "aprovação"]

/-- The `unproductive_indicators` list of `generate_fallback_response`
(lines 133-136). -/
def unproductive_indicators : List String :=
  ["obrigado", "obrigada", "parabéns", "felicitações",
   "informação", "comunicado", "fyi", "newsletter", "boletim"]

/-- The fixed productive reply template of `generate_fallback_response`
(line 148). -/
def fallback_productive_reply : String :=
  "Obrigado pelo seu email. Recebi sua solicitação e retornarei em breve com as informações necessárias."

/-- The fixed unproductive reply template of `generate_fallback_response`
(line 153). -/
def fallback_unproductive_reply : String :=
  "Obrigado pelo seu email. Recebi a informação e fico à disposição se precisar de algo mais."

/-- Models `generate_fallback_response` (lines 122-161): one point per
indicator word present as a substring of the lower-cased content, +2 on
the productive side if the content contains `?`, ties go to
`unproductive`, confidence `max(0.5, min(0.85, 0.6 + 0.05 · diff))`, and
one of two fixed reply templates. -/
def generate_fallback_response (content : String) : RemoteResult :=
  let content_lower := content.toList.map lowerChar
  let productive_score : ℤ :=
    ((productive_indicators.filter fun w => containsSub w.toList content_lower).length : ℤ)
  let unproductive_score : ℤ :=
    ((unproductive_indicators.filter fun w => containsSub w.toList content_lower).length : ℤ)
  let productive_score :=
    productive_score + (if containsSub ['?'] content.toList then 2 else 0)
  if productive_score > unproductive_score then
    { classification := "productive"
      confidence := max 0.5 (min 0.85 (0.6 + ((productive_score - unproductive_score : ℤ) : ℚ) * 0.05))
      reasoning := "Email contém elementos que sugerem necessidade de ação ou resposta"
      suggested_response := fallback_productive_reply }
  else
    { classification := "unproductive"
      confidence := max 0.5 (min 0.85 (0.6 + ((unproductive_score - productive_score : ℤ) : ℚ) * 0.05))
      reasoning := "Email parece ser informativo ou de cortesia"
      suggested_response := fallback_unproductive_reply }

/-- Models `classify_email` of the OpenAI service (lines 163-202).
`err` is the exception oracle for the outer `try` block;
`is_available` and `use_openai` are the construction flag and the
configuration flag of line 169; `remote : Except Unit RemoteJson` is the
outcome of the network call of `classify_with_openai` (`.error` models a
transport or parse exception, after which the inner `except` of line 173
falls back, as it also does when validation fails). -/
def classify_email (err : Bool) (is_available use_openai : Bool)
    (remote : Except Unit RemoteJson) (content : String) (file_name : Option String) :
    EmailAnalysisResponse :=
  if err then
    { classification := .UNPRODUCTIVE
      confidence := 0.5
      suggested_response := EmailClassifierService.error_response_text
      file_name := file_name }
  else
    let result : RemoteResult :=
      if is_available && use_openai then
        match remote with
        | .error _ => generate_fallback_response content
        | .ok j =>
          match classify_with_openai j with
          | .ok r => r
          | .error _ => generate_fallback_response content
      else generate_fallback_response content
    { classification :=
        if result.classification = "productive" then .PRODUCTIVE else .UNPRODUCTIVE
      confidence := round2 result.confidence
      suggested_response := result.suggested_response
      file_name := file_name }

end OpenAIEmailClassifierService

section Helpers

/-- Decoding `Char.ofNat` of a valid scalar value gives back the value. -/
theorem toNat_charOfNat (n : Nat) (h : n.isValidChar) : (Char.ofNat n).toNat = n := by
  simp [Char.ofNat, h, Char.ofNatAux, Char.toNat, UInt32.toNat, BitVec.toNat_ofNatLt]

/-- Lowering a character yields the question mark only for the question
mark itself. -/
theorem lowerChar_eq_qmark (c : Char) : lowerChar c = '?' ↔ c = '?' := by
  unfold lowerChar
  split
  next h =>
    have hv : (c.toNat + 32).isValidChar := Or.inl (by omega)
    constructor
    · intro he
      have h2 := congrArg Char.toNat he
      rw [toNat_charOfNat _ hv] at h2
      have h3 : ('?' : Char).toNat = 63 := rfl
      omega
    · intro he
      subst he
      exact absurd h (by decide)
  next =>
    split
    next h =>
      have hv : (c.toNat + 32).isValidChar := Or.inl (by omega)
      constructor
      · intro he
        have h2 := congrArg Char.toNat he
        rw [toNat_charOfNat _ hv] at h2
        have h3 : ('?' : Char).toNat = 63 := rfl
        omega
      · intro he
        subst he
        exact absurd h (by decide)
    next => exact Iff.rfl

/-- Rounding to two decimals is the identity on exact multiples of
`1/100`. -/
theorem round2_cents (n : ℤ) : round2 ((n : ℚ) / 100) = (n : ℚ) / 100 := by
  unfold round2
  have h1 : ((n : ℚ) / 100) * 100 = (n : ℚ) := by field_simp
  rw [h1, Int.floor_intCast]
  norm_num

/-- The clamped confidence formula of the classifiers is the integer
clamp, divided by 100. -/
theorem conf_cast (cap d : ℤ) :
    max (0.5 : ℚ) (min ((cap : ℚ) / 100) (0.6 + (d : ℚ) * 0.05))
      = ((max 50 (min cap (60 + 5 * d)) : ℤ) : ℚ) / 100 := by
  rw [eq_div_iff (by norm_num : (100 : ℚ) ≠ 0)]
  rw [max_mul_of_nonneg _ _ (by norm_num : (0 : ℚ) ≤ 100),
      min_mul_of_nonneg _ _ (by norm_num : (0 : ℚ) ≤ 100)]
  have h1 : (cap : ℚ) / 100 * 100 = (cap : ℚ) := by field_simp
  have h2 : ((0.6 : ℚ) + (d : ℚ) * 0.05) * 100 = 60 + 5 * (d : ℚ) := by ring
  rw [h1, h2]
  push_cast
  norm_num

/-- Rounding the clamped confidence formula changes nothing. -/
theorem round2_conf (cap d : ℤ) :
    round2 (max (0.5 : ℚ) (min ((cap : ℚ) / 100) (0.6 + (d : ℚ) * 0.05)))
      = max (0.5 : ℚ) (min ((cap : ℚ) / 100) (0.6 + (d : ℚ) * 0.05)) := by
  rw [conf_cast, round2_cents]

/-- Rounding to two decimals keeps a value of `[1/2, 1]` inside
`[1/2, 1]`. -/
theorem round2_bounds (q : ℚ) (h1 : 1/2 ≤ q) (h2 : q ≤ 1) :
    1/2 ≤ round2 q ∧ round2 q ≤ 1 := by
  unfold round2
  have hx1 : (50 : ℚ) ≤ q * 100 := by nlinarith
  have hx2 : q * 100 ≤ 100 := by nlinarith
  have hf1 : (50 : ℤ) ≤ ⌊q * 100⌋ := Int.le_floor.mpr (by exact_mod_cast hx1)
  have hf2 : ⌊q * 100⌋ ≤ 100 := by
    have := Int.floor_le_floor (α := ℚ) hx2
    simpa using this
  have hfl : (⌊q * 100⌋ : ℚ) ≤ q * 100 := Int.floor_le _
  have hup : ∀ m : ℤ, 50 ≤ m → m ≤ 100 → 1/2 ≤ (m : ℚ) / 100 ∧ (m : ℚ) / 100 ≤ 1 := by
    intro m hm1 hm2
    constructor
    · rw [le_div_iff₀ (by norm_num : (0 : ℚ) < 100)]
      have : (50 : ℚ) ≤ (m : ℚ) := by exact_mod_cast hm1
      linarith
    · rw [div_le_one (by norm_num : (0 : ℚ) < 100)]
      exact_mod_cast hm2
  split
  next => exact hup _ hf1 hf2
  next hlt =>
    split
    next hgt =>
      refine hup _ (by omega) ?_
      have h99 : (⌊q * 100⌋ : ℚ) < 100 := by linarith
      have : ⌊q * 100⌋ < 100 := by exact_mod_cast h99
      omega
    next hgt =>
      have heq : q * 100 - (⌊q * 100⌋ : ℚ) = 1/2 := le_antisymm (not_lt.mp hgt) (not_lt.mp hlt)
      have h99 : (⌊q * 100⌋ : ℚ) < 100 := by linarith
      have h99i : ⌊q * 100⌋ < 100 := by exact_mod_cast h99
      split
      next => exact hup _ hf1 hf2
      next => exact hup _ (by omega) (by omega)

/-- The clamp `max 0.5 (min (cap/100) x)` lies in `[1/2, 1]` whenever
`cap ≤ 100`. -/
theorem clamp_mem (cap : ℚ) (hcap : cap ≤ 1) (x : ℚ) :
    1/2 ≤ max (0.5 : ℚ) (min cap x) ∧ max (0.5 : ℚ) (min cap x) ≤ 1 := by
  constructor
  · exact le_trans (by norm_num) (le_max_left _ _)
  · exact max_le (by norm_num) (le_trans (min_le_left _ _) hcap)

/-- The two-valued classification enum. -/
theorem classification_cases (e : EmailClassification) :
    e = EmailClassification.PRODUCTIVE ∨ e = EmailClassification.UNPRODUCTIVE := by
  cases e
  · exact Or.inl rfl
  · exact Or.inr rfl

end Helpers

/-- The pattern `\?` matches exactly once per question-mark character. -/
theorem countRE_qmark (s : List Char) :
    countRE EmailClassifierService.pat_prod_question s = s.count '?' := by
  suffices h : ∀ fuel prev (s : List Char), s.length < fuel →
      countREFuel EmailClassifierService.pat_prod_question fuel prev s = s.count '?' by
    exact h _ none s (Nat.lt_succ_self _)
  intro fuel
  induction fuel with
  | zero => intro prev s h; omega
  | succ n ih =>
    intro prev s h
    match s with
    | [] =>
      simp [countREFuel, reMatch, EmailClassifierService.pat_prod_question, litStep]
    | c :: rest =>
      have hq : ("?" : String).toList = ['?'] := rfl
      by_cases hc : c = '?'
      · subst hc
        have hm : reMatch EmailClassifierService.pat_prod_question prev ('?' :: rest)
            = [(some '?', rest)] := by
          simp [reMatch, EmailClassifierService.pat_prod_question, hq, litStep]
        simp only [countREFuel, hm]
        rw [if_pos (Nat.lt_succ_self _)]
        rw [ih (some '?') rest (by simpa using Nat.lt_of_succ_lt_succ h)]
        simp [List.count_cons]
        omega
      · have h0 : lowerChar '?' = '?' := by decide
        have hne : ¬ lowerChar '?' = lowerChar c := by
          intro he
          exact hc ((lowerChar_eq_qmark c).mp (h0 ▸ he).symm)
        have hm : reMatch EmailClassifierService.pat_prod_question prev (c :: rest) = [] := by
          simp [reMatch, EmailClassifierService.pat_prod_question, hq, litStep, hne]
        simp only [countREFuel, hm]
        rw [ih (some c) rest (by simpa using Nat.lt_of_succ_lt_succ h)]
        simp [List.count_cons, hc]

/-- Variant of `round2_conf` taking the cap as a rational equal to an
integer number of cents. -/
theorem round2_conf_cap (capQ : ℚ) (cap d : ℤ) (hc : capQ = (cap : ℚ) / 100) :
    round2 (max (0.5 : ℚ) (min capQ (0.6 + (d : ℚ) * 0.05)))
      = max (0.5 : ℚ) (min capQ (0.6 + (d : ℚ) * 0.05)) := by
  rw [hc]
  exact round2_conf cap d

/-- The rule-based result follows the totals, decision and confidence
formulas of `classify_email`. -/
theorem rule_result_formula (content : String) (file_name : Option String) :
    let processed := EmailClassifierService.preprocess_text content.toList
    let tp := (EmailClassifierService.calculate_keyword_score processed).1
        + (EmailClassifierService.calculate_pattern_score processed).1
        + EmailClassifierService.analyze_structure processed
    let tu := (EmailClassifierService.calculate_keyword_score processed).2
    let r := EmailClassifierService.classify_email false content file_name
    r.classification
        = (if tp > tu then EmailClassification.PRODUCTIVE else EmailClassification.UNPRODUCTIVE) ∧
    r.confidence = max 0.5 (min 0.95 (0.6 + ((|tp - tu| : ℤ) : ℚ) * 0.05)) := by
  intro processed tp tu r
  have hconf : r.confidence
      = round2 (max 0.5 (if tp > tu then min 0.95 (0.6 + ((tp - tu : ℤ) : ℚ) * 0.05)
          else min 0.95 (0.6 + ((tu - tp : ℤ) : ℚ) * 0.05))) := rfl
  refine ⟨rfl, ?_⟩
  rcases lt_or_le tu tp with hlt | hle
  · rw [hconf, if_pos hlt, abs_of_pos (by omega : (0 : ℤ) < tp - tu)]
    exact round2_conf_cap 0.95 95 (tp - tu) (by norm_num)
  · rw [hconf, if_neg (by omega : ¬ tp > tu), abs_of_nonpos (by omega : tp - tu ≤ 0), neg_sub]
    exact round2_conf_cap 0.95 95 (tu - tp) (by norm_num)

/-- Claim C7: whenever an unexpected exception occurs inside a
classification call (exception oracle set), both entry points return the
emergency default: UNPRODUCTIVE, confidence exactly 0.5, the fixed
generic reply, and the caller's file name unchanged. -/
theorem claim_C7_emergency_default (content : String) (fn : Option String)
    (av use : Bool) (remote : Except Unit OpenAIEmailClassifierService.RemoteJson) :
    EmailClassifierService.classify_email true content fn
      = ⟨EmailClassification.UNPRODUCTIVE, 0.5, EmailClassifierService.error_response_text, fn⟩ ∧
    OpenAIEmailClassifierService.classify_email true av use remote content fn
      = ⟨EmailClassification.UNPRODUCTIVE, 0.5, EmailClassifierService.error_response_text, fn⟩ :=
  ⟨rfl, rfl⟩

/-- Claim C2 (amended): the pattern score counts non-overlapping
case-insensitive matches of each pattern, weighted 2, but in the
*normalized* (preprocessed) text, and it is that score that enters the
classifier's productive total. -/
theorem claim_C2_patterns_on_normalized (content : String) (fn : Option String) :
    (∀ t : List Char,
      EmailClassifierService.calculate_pattern_score t =
        ((EmailClassifierService.productive_patterns.map fun p => (countRE p t : ℤ) * 2).sum,
         (EmailClassifierService.unproductive_patterns.map fun p => (countRE p t : ℤ) * 2).sum)) ∧
    (EmailClassifierService.classify_email false content fn).classification =
      (if (EmailClassifierService.calculate_keyword_score
              (EmailClassifierService.preprocess_text content.toList)).1
          + (EmailClassifierService.calculate_pattern_score
              (EmailClassifierService.preprocess_text content.toList)).1
          + EmailClassifierService.analyze_structure
              (EmailClassifierService.preprocess_text content.toList)
          > (EmailClassifierService.calculate_keyword_score
              (EmailClassifierService.preprocess_text content.toList)).2
        then EmailClassification.PRODUCTIVE else EmailClassification.UNPRODUCTIVE) :=
  ⟨fun _ => rfl, rfl⟩

/-- Claim C2's counterexample: on `"pode.ajudar"` the pattern scores of
the raw and the normalized text differ (the modal pattern only matches
after the dot becomes a space), the code classifies PRODUCTIVE, and the
spec-described variant (patterns on the raw text) classifies
UNPRODUCTIVE — so the pattern step does not operate on the raw text. -/
theorem claim_C2_counterexample :
    EmailClassifierService.calculate_pattern_score
        (EmailClassifierService.preprocess_text ("pode.ajudar" : String).toList)
      ≠ EmailClassifierService.calculate_pattern_score ("pode.ajudar" : String).toList ∧
    (EmailClassifierService.classify_email false "pode.ajudar" none).classification
      = EmailClassification.PRODUCTIVE ∧
    (EmailClassifierService.classify_email_spec_raw_patterns "pode.ajudar" none).classification
      = EmailClassification.UNPRODUCTIVE := by
  refine ⟨?_, ?_, ?_⟩ <;> decide


/-- Evaluation helper: once the integer totals of the rule-based path are
known, the result's classification and confidence follow the decision and
confidence formulas. -/
theorem rule_result_eval (content : String) (fn : Option String) (tp tu : ℤ)
    (htp : (EmailClassifierService.calculate_keyword_score
          (EmailClassifierService.preprocess_text content.toList)).1
        + (EmailClassifierService.calculate_pattern_score
          (EmailClassifierService.preprocess_text content.toList)).1
        + EmailClassifierService.analyze_structure
          (EmailClassifierService.preprocess_text content.toList) = tp)
    (htu : (EmailClassifierService.calculate_keyword_score
          (EmailClassifierService.preprocess_text content.toList)).2 = tu) :
    (EmailClassifierService.classify_email false content fn).classification
        = (if tp > tu then EmailClassification.PRODUCTIVE else EmailClassification.UNPRODUCTIVE) ∧
    (EmailClassifierService.classify_email false content fn).confidence
        = max 0.5 (min 0.95 (0.6 + ((|tp - tu| : ℤ) : ℚ) * 0.05)) := by
  subst htp
  subst htu
  exact rule_result_formula content fn

/-- Claim C3: the Rule-Based Scorer's totals are
`productive = keyword_productive + pattern_productive + structural` and
`unproductive = keyword_unproductive` only (the unproductive pattern
score is never added); classification is PRODUCTIVE iff the productive
total strictly exceeds the unproductive one (ties give UNPRODUCTIVE);
the confidence is `min(0.95, 0.6 + 0.05·|difference|)` floored at 0.5. -/
theorem claim_C3_totals_decision_confidence (content : String) (file_name : Option String) :
    (let processed := EmailClassifierService.preprocess_text content.toList
     let tp := (EmailClassifierService.calculate_keyword_score processed).1
        + (EmailClassifierService.calculate_pattern_score processed).1
        + EmailClassifierService.analyze_structure processed
     let tu := (EmailClassifierService.calculate_keyword_score processed).2
     let r := EmailClassifierService.classify_email false content file_name
     r.classification
        = (if tp > tu then EmailClassification.PRODUCTIVE else EmailClassification.UNPRODUCTIVE) ∧
     r.confidence = max 0.5 (min 0.95 (0.6 + ((|tp - tu| : ℤ) : ℚ) * 0.05))) := by
  exact rule_result_formula content file_name

/-- Claim C4 (amended): a text with exactly balanced totals classifies
UNPRODUCTIVE with confidence 0.6, not 0.5 — the computed confidence is
`0.6 + 0.05·0 = 0.6` and the 0.5 floor never binds — and the empty
string (totals −1 versus 0, hence not balanced) classifies UNPRODUCTIVE
with confidence 0.65. -/
theorem claim_C4_tie_unproductive :
    (∀ (content : String) (fn : Option String),
      let processed := EmailClassifierService.preprocess_text content.toList
      let tp := (EmailClassifierService.calculate_keyword_score processed).1
          + (EmailClassifierService.calculate_pattern_score processed).1
          + EmailClassifierService.analyze_structure processed
      let tu := (EmailClassifierService.calculate_keyword_score processed).2
      tp = tu →
      (EmailClassifierService.classify_email false content fn).classification
          = EmailClassification.UNPRODUCTIVE ∧
      (EmailClassifierService.classify_email false content fn).confidence = 0.6) ∧
    (∀ fn : Option String,
      (EmailClassifierService.classify_email false "" fn).classification
          = EmailClassification.UNPRODUCTIVE ∧
      (EmailClassifierService.classify_email false "" fn).confidence = 0.65) := by
  constructor
  · intro content fn processed tp tu heq
    obtain ⟨h1, h2⟩ := rule_result_eval content fn tp tu rfl rfl
    constructor
    · rw [h1, if_neg (by omega : ¬ tp > tu)]
    · rw [h2, heq]
      norm_num [min_def, max_def]
  · intro fn
    obtain ⟨h1, h2⟩ := rule_result_eval "" fn (-1) 0 (by decide) (by decide)
    constructor
    · rw [h1, if_neg (by norm_num : ¬ (-1 : ℤ) > 0)]
    · rw [h2]
      norm_num [min_def, max_def]

/-- Claim C4's counterexample: the 20-word neutral text below has exactly
balanced totals (0 and 0), yet its confidence is 0.6 and not the claimed
floor value 0.5; the empty string, cited by the claim, has confidence
0.65 and not 0.5 either. -/
theorem claim_C4_counterexample :
    ((EmailClassifierService.calculate_keyword_score
          (EmailClassifierService.preprocess_text
            ("a a a a a a a a a a a a a a a a a a a a" : String).toList)).1
        + (EmailClassifierService.calculate_pattern_score
            (EmailClassifierService.preprocess_text
              ("a a a a a a a a a a a a a a a a a a a a" : String).toList)).1
        + EmailClassifierService.analyze_structure
            (EmailClassifierService.preprocess_text
              ("a a a a a a a a a a a a a a a a a a a a" : String).toList)
      = (EmailClassifierService.calculate_keyword_score
          (EmailClassifierService.preprocess_text
            ("a a a a a a a a a a a a a a a a a a a a" : String).toList)).2) ∧
    (EmailClassifierService.classify_email false
        "a a a a a a a a a a a a a a a a a a a a" none).confidence = 0.6 ∧
    ¬ (EmailClassifierService.classify_email false
        "a a a a a a a a a a a a a a a a a a a a" none).confidence = 0.5 ∧
    (EmailClassifierService.classify_email false "" none).confidence = 0.65 ∧
    ¬ (EmailClassifierService.classify_email false "" none).confidence = 0.5 := by
  obtain ⟨-, h2⟩ := rule_result_eval
    "a a a a a a a a a a a a a a a a a a a a" none 0 0 (by decide) (by decide)
  obtain ⟨-, h4⟩ := rule_result_eval "" none (-1) 0 (by decide) (by decide)
  refine ⟨by decide, ?_, ?_, ?_, ?_⟩
  · rw [h2]; norm_num [min_def, max_def]
  · rw [h2]; norm_num [min_def, max_def]
  · rw [h4]; norm_num [min_def, max_def]
  · rw [h4]; norm_num [min_def, max_def]

/-- Witness for claim C4's amended theorem at the balanced 20-word text:
the hypothesis (totals exactly balanced) holds there, and the amended
conclusion follows from the theorem itself. -/
theorem claim_C4_witness :
    ((EmailClassifierService.calculate_keyword_score
          (EmailClassifierService.preprocess_text
            ("a a a a a a a a a a a a a a a a a a a a" : String).toList)).1
        + (EmailClassifierService.calculate_pattern_score
            (EmailClassifierService.preprocess_text
              ("a a a a a a a a a a a a a a a a a a a a" : String).toList)).1
        + EmailClassifierService.analyze_structure
            (EmailClassifierService.preprocess_text
              ("a a a a a a a a a a a a a a a a a a a a" : String).toList)
      = (EmailClassifierService.calculate_keyword_score
          (EmailClassifierService.preprocess_text
            ("a a a a a a a a a a a a a a a a a a a a" : String).toList)).2) ∧
    ((EmailClassifierService.classify_email false
        "a a a a a a a a a a a a a a a a a a a a" none).classification
        = EmailClassification.UNPRODUCTIVE ∧
     (EmailClassifierService.classify_email false
        "a a a a a a a a a a a a a a a a a a a a" none).confidence = 0.6) :=
  ⟨by decide,
   claim_C4_tie_unproductive.1 "a a a a a a a a a a a a a a a a a a a a" none (by decide)⟩

/-- Claim C5 (amended): a text that is exactly one occurrence of the
urgency keyword `urgente` scores keyword 3, but the urgency regex
pattern adds 2 and the short-text penalty subtracts 1, so
`productive_total = 4` (not 3) and the confidence is 0.8 (not 0.75). -/
theorem claim_C5_single_urgency :
    (EmailClassifierService.calculate_keyword_score
        (EmailClassifierService.preprocess_text ("urgente" : String).toList)).1 = 3 ∧
    (EmailClassifierService.calculate_pattern_score
        (EmailClassifierService.preprocess_text ("urgente" : String).toList)).1 = 2 ∧
    EmailClassifierService.analyze_structure
        (EmailClassifierService.preprocess_text ("urgente" : String).toList) = -1 ∧
    (EmailClassifierService.calculate_keyword_score
        (EmailClassifierService.preprocess_text ("urgente" : String).toList)).2 = 0 ∧
    (EmailClassifierService.classify_email false "urgente" none).classification
        = EmailClassification.PRODUCTIVE ∧
    (EmailClassifierService.classify_email false "urgente" none).confidence = 0.8 := by
  obtain ⟨h1, h2⟩ := rule_result_eval "urgente" none 4 0 (by decide) (by decide)
  refine ⟨by decide, by decide, by decide, by decide, ?_, ?_⟩
  · rw [h1, if_pos (by norm_num : (4 : ℤ) > 0)]
  · rw [h2]
    norm_num [min_def, max_def]

/-- Claim C5's counterexample: on the single-urgency-keyword text
`"urgente"` the productive total is 4, not the claimed 3, and the
confidence is 0.8, not the claimed 0.75. -/
theorem claim_C5_counterexample :
    (EmailClassifierService.calculate_keyword_score
        (EmailClassifierService.preprocess_text ("urgente" : String).toList)).1
      + (EmailClassifierService.calculate_pattern_score
          (EmailClassifierService.preprocess_text ("urgente" : String).toList)).1
      + EmailClassifierService.analyze_structure
          (EmailClassifierService.preprocess_text ("urgente" : String).toList) = 4 ∧
    (4 : ℤ) ≠ 3 ∧
    (EmailClassifierService.classify_email false "urgente" none).confidence = 0.8 ∧
    ¬ (EmailClassifierService.classify_email false "urgente" none).confidence = 0.75 := by
  obtain ⟨-, h2⟩ := rule_result_eval "urgente" none 4 0 (by decide) (by decide)
  rw [h2]
  refine ⟨by decide, by decide, ?_, ?_⟩ <;> norm_num [min_def, max_def]

/-- Claim C9: every question mark in the scored text contributes 4 to the
productive total — 2 through the `\?` regex pattern (weight 2) and 2
through the structural bonus — and the single-character input `"?"` has
productive total 2 + 2 − 1 = 3 against 0, classifying PRODUCTIVE with
confidence 0.75. -/
theorem claim_C9_question_mark_weight :
    (∀ s : List Char,
      countRE EmailClassifierService.pat_prod_question s = s.count '?' ∧
      (EmailClassifierService.calculate_pattern_score s).1
          + EmailClassifierService.analyze_structure s
        = 4 * (s.count '?' : ℤ)
          + ((countRE EmailClassifierService.pat_prod_when s : ℤ) * 2
             + (countRE EmailClassifierService.pat_prod_modal s : ℤ) * 2
             + (countRE EmailClassifierService.pat_prod_request s : ℤ) * 2
             + (countRE EmailClassifierService.pat_prod_urgent s : ℤ) * 2
             + (if wordCount s < 20 then -1 else 0)
             + (if 200 < wordCount s then 1 else 0))) ∧
    ((EmailClassifierService.calculate_keyword_score
        (EmailClassifierService.preprocess_text ("?" : String).toList)).1
      + (EmailClassifierService.calculate_pattern_score
          (EmailClassifierService.preprocess_text ("?" : String).toList)).1
      + EmailClassifierService.analyze_structure
          (EmailClassifierService.preprocess_text ("?" : String).toList) = 3 ∧
     (EmailClassifierService.calculate_keyword_score
        (EmailClassifierService.preprocess_text ("?" : String).toList)).2 = 0 ∧
     (EmailClassifierService.classify_email false "?" none).classification
        = EmailClassification.PRODUCTIVE ∧
     (EmailClassifierService.classify_email false "?" none).confidence = 0.75) := by
  constructor
  · intro s
    refine ⟨countRE_qmark s, ?_⟩
    simp only [EmailClassifierService.calculate_pattern_score,
      EmailClassifierService.productive_patterns, EmailClassifierService.analyze_structure,
      List.map_cons, List.map_nil, List.sum_cons, List.sum_nil, countRE_qmark s]
    ring
  · obtain ⟨h1, h2⟩ := rule_result_eval "?" none 3 0 (by decide) (by decide)
    refine ⟨by decide, by decide, ?_, ?_⟩
    · rw [h1, if_pos (by norm_num : (3 : ℤ) > 0)]
    · rw [h2]
      norm_num [min_def, max_def]

/-- Evaluation helper: once the integer indicator scores are known, the
fallback result's fields follow its decision, confidence and template
formulas. -/
theorem fallback_result_eval (content : String) (p u : ℤ)
    (hp : ((OpenAIEmailClassifierService.productive_indicators.filter fun w =>
          containsSub w.toList (content.toList.map lowerChar)).length : ℤ)
        + (if containsSub ['?'] content.toList then 2 else 0) = p)
    (hu : ((OpenAIEmailClassifierService.unproductive_indicators.filter fun w =>
          containsSub w.toList (content.toList.map lowerChar)).length : ℤ) = u) :
    (OpenAIEmailClassifierService.generate_fallback_response content).classification
        = (if p > u then "productive" else "unproductive") ∧
    (OpenAIEmailClassifierService.generate_fallback_response content).confidence
        = max 0.5 (min 0.85 (0.6 + ((|p - u| : ℤ) : ℚ) * 0.05)) ∧
    (OpenAIEmailClassifierService.generate_fallback_response content).suggested_response
        = (if p > u then OpenAIEmailClassifierService.fallback_productive_reply
           else OpenAIEmailClassifierService.fallback_unproductive_reply) := by
  simp only [OpenAIEmailClassifierService.generate_fallback_response]
  rw [hp, hu]
  rcases lt_or_le u p with h | h
  · simp only [if_pos h, abs_of_pos (by omega : (0 : ℤ) < p - u)]
    exact ⟨trivial, trivial, trivial⟩
  · simp only [if_neg (by omega : ¬ p > u), abs_of_nonpos (by omega : p - u ≤ 0), neg_sub]
    exact ⟨trivial, trivial, trivial⟩

/-- A successfully validated remote result always carries a confidence in
`[1/2, 1]` (clamped or already in range). -/
theorem classify_with_openai_ok_bounds (j : OpenAIEmailClassifierService.RemoteJson)
    (r : OpenAIEmailClassifierService.RemoteResult)
    (h : OpenAIEmailClassifierService.classify_with_openai j = .ok r) :
    1/2 ≤ r.confidence ∧ r.confidence ≤ 1 := by
  rcases j with ⟨(_ | cl), (_ | conf), (_ | reas), (_ | sr)⟩ <;>
    simp only [OpenAIEmailClassifierService.classify_with_openai] at h <;>
    try exact Except.noConfusion h
  split at h
  · exact Except.noConfusion h
  · rw [Except.ok.injEq] at h
    subst h
    by_cases hc : (0.5 : ℚ) ≤ conf ∧ conf ≤ 1.0
    · rw [if_neg (not_not_intro hc)]
      exact ⟨le_trans (by norm_num) hc.1, le_trans hc.2 (by norm_num)⟩
    · rw [if_pos hc]
      exact clamp_mem 1.0 (by norm_num) conf

/-- Claim C10: the fallback heuristic scores by substring presence, so
each indicator word contributes at most 1 however often it occurs;
consequently any two contents agreeing on indicator presence and on
containing `?` get the same fallback classification and confidence. -/
theorem claim_C10_fallback_presence_based (c1 c2 : String)
    (hp : ∀ w ∈ OpenAIEmailClassifierService.productive_indicators,
        containsSub w.toList (c1.toList.map lowerChar)
          = containsSub w.toList (c2.toList.map lowerChar))
    (hu : ∀ w ∈ OpenAIEmailClassifierService.unproductive_indicators,
        containsSub w.toList (c1.toList.map lowerChar)
          = containsSub w.toList (c2.toList.map lowerChar))
    (hq : containsSub ['?'] c1.toList = containsSub ['?'] c2.toList) :
    (OpenAIEmailClassifierService.generate_fallback_response c1).classification
        = (OpenAIEmailClassifierService.generate_fallback_response c2).classification ∧
    (OpenAIEmailClassifierService.generate_fallback_response c1).confidence
        = (OpenAIEmailClassifierService.generate_fallback_response c2).confidence := by
  have hfp : (OpenAIEmailClassifierService.productive_indicators.filter fun w =>
        containsSub w.toList (c1.toList.map lowerChar))
      = (OpenAIEmailClassifierService.productive_indicators.filter fun w =>
        containsSub w.toList (c2.toList.map lowerChar)) := List.filter_congr hp
  have hfu : (OpenAIEmailClassifierService.unproductive_indicators.filter fun w =>
        containsSub w.toList (c1.toList.map lowerChar))
      = (OpenAIEmailClassifierService.unproductive_indicators.filter fun w =>
        containsSub w.toList (c2.toList.map lowerChar)) := List.filter_congr hu
  obtain ⟨h1c, h2c, -⟩ := fallback_result_eval c1 _ _ rfl rfl
  obtain ⟨h1d, h2d, -⟩ := fallback_result_eval c2 _ _ rfl rfl
  constructor
  · rw [h1c, h1d, hfp, hq, hfu]
  · rw [h2c, h2d, hfp, hq, hfu]

/-- Witness for claim C10: `"urgente"` and `"urgente urgente"` agree on
all indicator presences, and the theorem yields equal fallback
classification and confidence for them. -/
theorem claim_C10_witness :
    (∀ w ∈ OpenAIEmailClassifierService.productive_indicators,
        containsSub w.toList (("urgente" : String).toList.map lowerChar)
          = containsSub w.toList (("urgente urgente" : String).toList.map lowerChar)) ∧
    (∀ w ∈ OpenAIEmailClassifierService.unproductive_indicators,
        containsSub w.toList (("urgente" : String).toList.map lowerChar)
          = containsSub w.toList (("urgente urgente" : String).toList.map lowerChar)) ∧
    containsSub ['?'] ("urgente" : String).toList
        = containsSub ['?'] ("urgente urgente" : String).toList ∧
    ((OpenAIEmailClassifierService.generate_fallback_response "urgente").classification
        = (OpenAIEmailClassifierService.generate_fallback_response "urgente urgente").classification ∧
     (OpenAIEmailClassifierService.generate_fallback_response "urgente").confidence
        = (OpenAIEmailClassifierService.generate_fallback_response "urgente urgente").confidence) :=
  ⟨by decide, by decide, by decide,
   claim_C10_fallback_presence_based "urgente" "urgente urgente" (by decide) (by decide) (by decide)⟩

/-- Claim C8: whenever the remote call fails — transport error or a
response the validator rejects — the orchestrator still returns a
well-formed result computed by the simplified local heuristic: indicator
hits are summed, +2 on the productive side for a question mark, ties go
unproductive, confidence `min(0.85, 0.6 + 0.05·diff)` floored at 0.5,
with one of the two fixed generic reply templates. -/
theorem claim_C8_fallback_on_remote_failure
    (remote : Except Unit OpenAIEmailClassifierService.RemoteJson)
    (content : String) (fn : Option String)
    (hfail : remote = .error () ∨ ∃ j msg, remote = .ok j ∧
        OpenAIEmailClassifierService.classify_with_openai j = .error msg) :
    let content_lower := content.toList.map lowerChar
    let p : ℤ := ((OpenAIEmailClassifierService.productive_indicators.filter fun w =>
          containsSub w.toList content_lower).length : ℤ)
        + (if containsSub ['?'] content.toList then 2 else 0)
    let u : ℤ := ((OpenAIEmailClassifierService.unproductive_indicators.filter fun w =>
          containsSub w.toList content_lower).length : ℤ)
    let r := OpenAIEmailClassifierService.classify_email false true true remote content fn
    r.classification
        = (if p > u then EmailClassification.PRODUCTIVE else EmailClassification.UNPRODUCTIVE) ∧
    r.confidence = max 0.5 (min 0.85 (0.6 + ((|p - u| : ℤ) : ℚ) * 0.05)) ∧
    (r.suggested_response = OpenAIEmailClassifierService.fallback_productive_reply ∨
     r.suggested_response = OpenAIEmailClassifierService.fallback_unproductive_reply) := by
  intro content_lower p u r
  have hres : r = EmailAnalysisResponse.mk
      (if (OpenAIEmailClassifierService.generate_fallback_response content).classification
          = "productive"
        then EmailClassification.PRODUCTIVE else EmailClassification.UNPRODUCTIVE)
      (round2 (OpenAIEmailClassifierService.generate_fallback_response content).confidence)
      (OpenAIEmailClassifierService.generate_fallback_response content).suggested_response
      fn := by
    rcases hfail with rfl | ⟨j, msg, rfl, hj⟩
    · rfl
    · show OpenAIEmailClassifierService.classify_email false true true (.ok j) content fn = _
      simp only [OpenAIEmailClassifierService.classify_email, hj]
      rfl
  obtain ⟨h1, h2, h3⟩ := fallback_result_eval content p u rfl rfl
  rw [hres]
  refine ⟨?_, ?_, ?_⟩
  · show (if (OpenAIEmailClassifierService.generate_fallback_response content).classification
        = "productive" then EmailClassification.PRODUCTIVE else EmailClassification.UNPRODUCTIVE)
      = _
    rw [h1]
    rcases lt_or_le u p with h | h
    · simp [if_pos h]
    · simp only [if_neg (by omega : ¬ p > u)]
      rw [if_neg (by decide)]
  · show round2 (OpenAIEmailClassifierService.generate_fallback_response content).confidence = _
    rw [h2]
    exact round2_conf_cap 0.85 85 |p - u| (by norm_num)
  · show (OpenAIEmailClassifierService.generate_fallback_response content).suggested_response
        = _ ∨ _
    rw [h3]
    rcases lt_or_le u p with h | h
    · exact Or.inl (by rw [if_pos h])
    · exact Or.inr (by rw [if_neg (by omega : ¬ p > u)])

/-- Witness for claim C8: a remote stub that always fails (transport
error) still yields the simplified-heuristic result on `"olá"`. -/
theorem claim_C8_witness :
    ((.error () : Except Unit OpenAIEmailClassifierService.RemoteJson) = .error () ∨
      ∃ j msg, (.error () : Except Unit OpenAIEmailClassifierService.RemoteJson) = .ok j ∧
        OpenAIEmailClassifierService.classify_with_openai j = .error msg) ∧
    (let content_lower := ("olá" : String).toList.map lowerChar
     let p : ℤ := ((OpenAIEmailClassifierService.productive_indicators.filter fun w =>
           containsSub w.toList content_lower).length : ℤ)
         + (if containsSub ['?'] ("olá" : String).toList then 2 else 0)
     let u : ℤ := ((OpenAIEmailClassifierService.unproductive_indicators.filter fun w =>
           containsSub w.toList content_lower).length : ℤ)
     let r := OpenAIEmailClassifierService.classify_email false true true (.error ()) "olá" none
     r.classification
         = (if p > u then EmailClassification.PRODUCTIVE else EmailClassification.UNPRODUCTIVE) ∧
     r.confidence = max 0.5 (min 0.85 (0.6 + ((|p - u| : ℤ) : ℚ) * 0.05)) ∧
     (r.suggested_response = OpenAIEmailClassifierService.fallback_productive_reply ∨
      r.suggested_response = OpenAIEmailClassifierService.fallback_unproductive_reply)) :=
  ⟨Or.inl rfl, claim_C8_fallback_on_remote_failure (.error ()) "olá" none (Or.inl rfl)⟩

/-- Claim C6: the Remote-Classifier Adapter raises when the parsed JSON
lacks any of the four required keys or carries a classification outside
`{"productive", "unproductive"}`, while a numeric confidence outside
`[0.5, 1.0]` is clamped, not rejected — e.g. a returned confidence of
1.4 becomes 1.0 in the final result. -/
theorem claim_C6_remote_validation :
    (∀ j : OpenAIEmailClassifierService.RemoteJson,
      (j.classification = none ∨ j.confidence = none ∨ j.reasoning = none ∨
        j.suggested_response = none) →
      ∃ msg, OpenAIEmailClassifierService.classify_with_openai j = .error msg) ∧
    (∀ (j : OpenAIEmailClassifierService.RemoteJson) (s : String),
      j.classification = some s → ¬ s = "productive" → ¬ s = "unproductive" →
      ∃ msg, OpenAIEmailClassifierService.classify_with_openai j = .error msg) ∧
    (∀ (cl : String) (conf : ℚ) (reasoning suggested : String),
      cl = "productive" ∨ cl = "unproductive" →
      OpenAIEmailClassifierService.classify_with_openai
          ⟨some cl, some conf, some reasoning, some suggested⟩
        = .ok ⟨cl, max 0.5 (min 1.0 conf), reasoning, suggested⟩) ∧
    (OpenAIEmailClassifierService.classify_email false true true
        (.ok ⟨some "productive", some 1.4, some "r", some "s"⟩) "content" none).confidence
      = 1 := by
  refine ⟨?_, ?_, ?_, ?_⟩
  · rintro ⟨(_ | cl), (_ | conf), (_ | reas), (_ | sr)⟩ h <;> try exact ⟨_, rfl⟩
    rcases h with h | h | h | h <;> exact absurd h (by simp)
  · rintro ⟨(_ | cl), (_ | conf), (_ | reas), (_ | sr)⟩ s hcl hs1 hs2 <;> try exact ⟨_, rfl⟩
    rw [Option.some.injEq] at hcl
    subst hcl
    refine ⟨"Classificação inválida da OpenAI", ?_⟩
    simp only [OpenAIEmailClassifierService.classify_with_openai]
    rw [if_pos (by simp [hs1, hs2])]
  · intro cl conf reasoning suggested hcl
    simp only [OpenAIEmailClassifierService.classify_with_openai]
    rw [if_neg (by rcases hcl with rfl | rfl <;> simp)]
    by_cases hc : (0.5 : ℚ) ≤ conf ∧ conf ≤ 1.0
    · rw [if_neg (not_not_intro hc), min_eq_right hc.2, max_eq_right hc.1]
    · rw [if_pos hc]
  · have hv : OpenAIEmailClassifierService.classify_with_openai
        ⟨some "productive", some 1.4, some "r", some "s"⟩
        = .ok ⟨"productive", max 0.5 (min 1.0 1.4), "r", "s"⟩ := by
      simp only [OpenAIEmailClassifierService.classify_with_openai]
      rw [if_neg (by simp), if_pos (by norm_num)]
    have hc : (OpenAIEmailClassifierService.classify_email false true true
        (.ok ⟨some "productive", some 1.4, some "r", some "s"⟩) "content" none).confidence
        = round2 (match OpenAIEmailClassifierService.classify_with_openai
            ⟨some "productive", some 1.4, some "r", some "s"⟩ with
          | .ok r => r
          | .error _ => OpenAIEmailClassifierService.generate_fallback_response "content").confidence :=
      rfl
    rw [hc, hv]
    have h1 : max (0.5 : ℚ) (min 1.0 1.4) = 1 := by norm_num [min_def, max_def]
    show round2 (max (0.5 : ℚ) (min 1.0 1.4)) = 1
    rw [h1]
    have h2 : (1 : ℚ) = ((100 : ℤ) : ℚ) / 100 := by norm_num
    rw [h2, round2_cents]

/-- Witness for claim C6 at concrete inputs: a JSON object missing the
`classification` key is rejected, classification value `"maybe"` is
rejected, and a valid response with confidence 2 is accepted with the
confidence clamped. -/
theorem claim_C6_witness :
    ((⟨none, some 1, some "a", some "b"⟩ :
        OpenAIEmailClassifierService.RemoteJson).classification = none ∧
      ∃ msg, OpenAIEmailClassifierService.classify_with_openai
          ⟨none, some 1, some "a", some "b"⟩ = .error msg) ∧
    ((⟨some "maybe", some 1, some "a", some "b"⟩ :
        OpenAIEmailClassifierService.RemoteJson).classification = some "maybe" ∧
      ∃ msg, OpenAIEmailClassifierService.classify_with_openai
          ⟨some "maybe", some 1, some "a", some "b"⟩ = .error msg) ∧
    OpenAIEmailClassifierService.classify_with_openai ⟨some "productive", some 2, some "a", some "b"⟩
      = .ok ⟨"productive", max 0.5 (min 1.0 2), "a", "b"⟩ :=
  ⟨⟨rfl, claim_C6_remote_validation.1 ⟨none, some 1, some "a", some "b"⟩ (Or.inl rfl)⟩,
   ⟨rfl, claim_C6_remote_validation.2.1 ⟨some "maybe", some 1, some "a", some "b"⟩ "maybe" rfl
      (by decide) (by decide)⟩,
   claim_C6_remote_validation.2.2.1 "productive" 2 "a" "b" (Or.inl rfl)⟩

/-- With the remote path enabled and a parsed response `j` in hand, the
orchestrator confidence is the rounded confidence of the validated
result, falling back on validation failure. -/
theorem openai_confidence_shape (av use : Bool) (j : OpenAIEmailClassifierService.RemoteJson)
    (content : String) (fn : Option String) (hau : (av && use) = true) :
    (OpenAIEmailClassifierService.classify_email false av use (.ok j) content fn).confidence
      = round2 (match OpenAIEmailClassifierService.classify_with_openai j with
          | .ok r => r
          | .error _ => OpenAIEmailClassifierService.generate_fallback_response content).confidence := by
  have hc : (OpenAIEmailClassifierService.classify_email false av use (.ok j) content fn).confidence
      = round2 (if (av && use) = true then
          (match OpenAIEmailClassifierService.classify_with_openai j with
           | .ok r => r
           | .error _ => OpenAIEmailClassifierService.generate_fallback_response content)
          else OpenAIEmailClassifierService.generate_fallback_response content).confidence := rfl
  rw [hc, hau]
  rfl

/-- Claim C1: for every input and file name — and whatever the exception
oracle, configuration flags and remote outcome — both classification
entry points return a result record (modelled as total functions plus the
absorbing `except` handlers) whose classification is PRODUCTIVE or
UNPRODUCTIVE and whose confidence lies in `[1/2, 1]`. -/
theorem claim_C1_wellformed_result (err err2 av use : Bool)
    (remote : Except Unit OpenAIEmailClassifierService.RemoteJson)
    (content : String) (fn : Option String) :
    ((EmailClassifierService.classify_email err content fn).classification
        = EmailClassification.PRODUCTIVE ∨
     (EmailClassifierService.classify_email err content fn).classification
        = EmailClassification.UNPRODUCTIVE) ∧
    (1/2 ≤ (EmailClassifierService.classify_email err content fn).confidence ∧
     (EmailClassifierService.classify_email err content fn).confidence ≤ 1) ∧
    ((OpenAIEmailClassifierService.classify_email err2 av use remote content fn).classification
        = EmailClassification.PRODUCTIVE ∨
     (OpenAIEmailClassifierService.classify_email err2 av use remote content fn).classification
        = EmailClassification.UNPRODUCTIVE) ∧
    (1/2 ≤ (OpenAIEmailClassifierService.classify_email err2 av use remote content fn).confidence ∧
     (OpenAIEmailClassifierService.classify_email err2 av use remote content fn).confidence ≤ 1) := by
  refine ⟨classification_cases _, ?_, classification_cases _, ?_⟩
  · cases err
    · have h2 := (rule_result_formula content fn).2
      rw [h2]
      exact clamp_mem 0.95 (by norm_num) _
    · show 1/2 ≤ (0.5 : ℚ) ∧ (0.5 : ℚ) ≤ 1
      norm_num
  · cases err2
    · have hfb : 1/2 ≤ (OpenAIEmailClassifierService.generate_fallback_response content).confidence ∧
          (OpenAIEmailClassifierService.generate_fallback_response content).confidence ≤ 1 := by
        obtain ⟨-, h2, -⟩ := fallback_result_eval content _ _ rfl rfl
        rw [h2]
        exact clamp_mem 0.85 (by norm_num) _
      have hc : (OpenAIEmailClassifierService.classify_email false av use remote content fn).confidence
          = round2 (if (av && use) = true then
              (match remote with
               | .error _ => OpenAIEmailClassifierService.generate_fallback_response content
               | .ok j =>
                 match OpenAIEmailClassifierService.classify_with_openai j with
                 | .ok r => r
                 | .error _ => OpenAIEmailClassifierService.generate_fallback_response content)
              else OpenAIEmailClassifierService.generate_fallback_response content).confidence := rfl
      cases hau : (av && use)
      · rw [hc, hau]
        exact round2_bounds _ hfb.1 hfb.2
      · rcases remote with e | j
        · rw [hc, hau]
          exact round2_bounds _ hfb.1 hfb.2
        · rw [openai_confidence_shape av use j content fn hau]
          cases hcw : OpenAIEmailClassifierService.classify_with_openai j with
          | error msg =>
            exact round2_bounds _ hfb.1 hfb.2
          | ok r =>
            have hb := classify_with_openai_ok_bounds j r hcw
            exact round2_bounds _ hb.1 hb.2
    · show 1/2 ≤ (0.5 : ℚ) ∧ (0.5 : ℚ) ≤ 1
      norm_num
